import Mathlib

/-!
Shallow embedding of the grid-connection and component-metadata layer of the
frequenz SDK (files `fuse.py`, `grid_connection.py`, `component/_component.py`
and the formula-generator interface) together with proofs of the spec claims.

Python `float` values that are only stored and compared, never computed with,
are modelled as rationals (`ℚ`); Python `int` values as `ℤ` or `ℕ` as the
context dictates.  Python exceptions are modelled with `Except`.
-/

/-- Modelled from the spec: the `Current` quantity type from
`frequenz.sdk.timeseries` is not under src/ (only imported there); per the
spec, fuse rated currents are values in Amperes (phase 1/2/3) compared by
value, so `Current` is a value wrapper around its Ampere magnitude. -/
structure Current where
  amperes : ℚ
deriving DecidableEq, Repr

/-- Models `Current.from_amperes`. -/
def Current.from_amperes (value : ℚ) : Current := ⟨value⟩

/-- Models `Current.as_amperes`. -/
def Current.as_amperes (self : Current) : ℚ := self.amperes

/-- Embeds the frozen dataclass `Fuse` from `fuse.py`: three rated currents,
one per phase. -/
structure Fuse where
  rated_current_phase_1 : Current
  rated_current_phase_2 : Current
  rated_current_phase_3 : Current
deriving DecidableEq, Repr

/-- Models the `@dataclass(frozen=True)`-generated `Fuse.__eq__`: field-by-field
value comparison of the three rated currents. -/
def Fuse.eqPy (self rhs : Fuse) : Bool :=
  self.rated_current_phase_1 == rhs.rated_current_phase_1 &&
  self.rated_current_phase_2 == rhs.rated_current_phase_2 &&
  self.rated_current_phase_3 == rhs.rated_current_phase_3

/-- Models `Fuse.__hash__`, which returns
`hash((c1.as_amperes(), c2.as_amperes(), c3.as_amperes()))`.  Python `hash` is a
deterministic function of the tuple, so the hash is modelled by the tuple
itself: two fuses get equal Python hashes exactly when their ampere tuples are
equal. -/
def Fuse.pyHash (self : Fuse) : ℚ × ℚ × ℚ :=
  (self.rated_current_phase_1.as_amperes,
   self.rated_current_phase_2.as_amperes,
   self.rated_current_phase_3.as_amperes)

/-- Embeds the `InverterType` enum from `_component.py`.  The numeric values
come from the protobuf `frequenz.api.microgrid.inverter_pb2.Type` enum
(`TYPE_UNSPECIFIED = 0`, `TYPE_BATTERY = 1`, `TYPE_SOLAR = 2`,
`TYPE_HYBRID = 3`). -/
inductive InverterType where
  | NONE
  | BATTERY
  | SOLAR
  | HYBRID
deriving DecidableEq, Repr

/-- Numeric protobuf value of each `InverterType` member. -/
def InverterType.value : InverterType → ℕ
  | .NONE => 0
  | .BATTERY => 1
  | .SOLAR => 2
  | .HYBRID => 3

/-- The members of the `InverterType` enum, in definition order (the order
Python iterates them in `for t in InverterType`). -/
def InverterType.members : List InverterType :=
  [.NONE, .BATTERY, .SOLAR, .HYBRID]

/-- Embeds the `ComponentCategory` enum from `_component.py`.  The numeric
values of the protobuf-backed members come from
`frequenz.api.common.components_pb2.ComponentCategory`
(`UNSPECIFIED = 0`, `GRID = 1`, `METER = 2`, `INVERTER = 3`, `BATTERY = 5`,
`EV_CHARGER = 6`, `CHP = 10`); `PV_ARRAY` uses the literal `1000001` from the
source. -/
inductive ComponentCategory where
  | NONE
  | GRID
  | METER
  | INVERTER
  | BATTERY
  | EV_CHARGER
  | CHP
  | PV_ARRAY
deriving DecidableEq, Repr

/-- Numeric value of each `ComponentCategory` member. -/
def ComponentCategory.value : ComponentCategory → ℕ
  | .NONE => 0
  | .GRID => 1
  | .METER => 2
  | .INVERTER => 3
  | .BATTERY => 5
  | .EV_CHARGER => 6
  | .CHP => 10
  | .PV_ARRAY => 1000001

/-- The members of the `ComponentCategory` enum, in definition order. -/
def ComponentCategory.members : List ComponentCategory :=
  [.NONE, .GRID, .METER, .INVERTER, .BATTERY, .EV_CHARGER, .CHP, .PV_ARRAY]

/-- Wire value of `components_pb.ComponentCategory.COMPONENT_CATEGORY_SENSOR`
(from `frequenz.api.common` `components.proto`); the sensor category has no
`ComponentCategory` member. -/
def componentCategorySensorValue : ℕ := 7

/-- Wire value of `components_pb.ComponentCategory.COMPONENT_CATEGORY_INVERTER`. -/
def componentCategoryInverterValue : ℕ := 3

/-- Python exceptions that the embedded functions can raise. -/
inductive PyError where
  | runtimeMultipleGrids
  | runtimeGridMetadataNone
  | runtimeGridFuseNone
  | attributeErrorNoFuse
  | valueErrorSensor
  | valueErrorBadEnumValue
deriving DecidableEq, Repr

/-- Models the Python enum constructor `InverterType(v)`: look up the first
member (in definition order) whose `value` equals `v`; raise `ValueError` when
there is none. -/
def InverterType.ofValue (v : ℕ) : Except PyError InverterType :=
  match InverterType.members.find? (fun t => t.value == v) with
  | some t => .ok t
  | none => .error .valueErrorBadEnumValue

/-- Models the Python enum constructor `ComponentCategory(v)`. -/
def ComponentCategory.ofValue (v : ℕ) : Except PyError ComponentCategory :=
  match ComponentCategory.members.find? (fun t => t.value == v) with
  | some t => .ok t
  | none => .error .valueErrorBadEnumValue

/-- Embeds `_component_type_from_protobuf` from `_component.py`: takes the wire
component category and the `type` field of the inverter metadata message.  For
a non-INVERTER category it returns `None`; for INVERTER it first checks whether
any `InverterType` member carries the metadata type value and returns `None`
when none does, otherwise it returns `InverterType(component_metadata.type)`. -/
def componentTypeFromProtobuf (component_category : ℕ) (metadata_type : ℕ) :
    Except PyError (Option InverterType) :=
  if component_category = componentCategoryInverterValue then
    if !(InverterType.members.any (fun t => t.value == metadata_type)) then
      .ok none
    else
      (InverterType.ofValue metadata_type).map some
  else
    .ok none

/-- Embeds `_component_category_from_protobuf` from `_component.py`: raises
`ValueError` on the SENSOR wire value, returns `ComponentCategory.NONE` when no
member carries the wire value, and otherwise returns
`ComponentCategory(component_category)`. -/
def componentCategoryFromProtobuf (component_category : ℕ) :
    Except PyError ComponentCategory :=
  if component_category = componentCategorySensorValue then
    .error .valueErrorSensor
  else if !(ComponentCategory.members.any (fun t => t.value == component_category)) then
    .ok ComponentCategory.NONE
  else
    ComponentCategory.ofValue component_category

/-- Embeds `GridMetadata` from `_component.py`: its constructor stores only
`max_current` (the `_max_current_a` attribute, exposed through the
`max_current` property).  Note that this class defines no `fuse` attribute. -/
structure GridMetadata where
  max_current : ℚ
deriving DecidableEq, Repr

/-- A Python object appearing as the right-hand side of `GridMetadata.__eq__`:
either a `GridMetadata` instance or any other object (represented by an opaque
tag), for which `isinstance(rhs, GridMetadata)` is false. -/
inductive PyObj where
  | gridMetadata (md : GridMetadata)
  | notGridMetadata (tag : ℕ)
deriving DecidableEq, Repr

/-- Embeds `GridMetadata.__eq__`: `True` when `rhs` is a `GridMetadata`
instance with equal `max_current`, `False` for every other object. -/
def GridMetadata.eqPy (self : GridMetadata) : PyObj → Bool
  | .gridMetadata rhs => self.max_current == rhs.max_current
  | .notGridMetadata _ => false

/-- Embeds `GridMetadata.__hash__`, which returns `hash(self.max_current)`;
as with `Fuse.pyHash`, Python `hash` is a deterministic function of its
argument and is modelled by the argument itself. -/
def GridMetadata.pyHash (self : GridMetadata) : ℚ := self.max_current

/-- Embeds the `ComponentMetadata` class hierarchy of `_component.py`: the base
class has no attributes and `GridMetadata` is its only subclass in the source. -/
inductive ComponentMetadata where
  | grid (md : GridMetadata)
deriving DecidableEq, Repr

/-- Models the Python attribute lookup `metadata.fuse` performed by
`grid_connection.initialize`.  Neither `ComponentMetadata` nor `GridMetadata`
defines a `fuse` attribute in `_component.py`, so the lookup raises
`AttributeError` on every `ComponentMetadata` instance; an `ok` result (the
attribute existing, possibly `None`) is unreachable in this source tree. -/
def ComponentMetadata.fuseAttr : ComponentMetadata → Except PyError (Option Fuse)
  | .grid _ => .error .attributeErrorNoFuse

/-- Embeds the frozen dataclass `Component` from `_component.py`. -/
structure Component where
  component_id : ℤ
  category : ComponentCategory
  type : Option InverterType := none
  metadata : Option ComponentMetadata := none
deriving DecidableEq, Repr

/-- Embeds `Component.is_valid`: `(component_id > 0 and any(t == category for t
in ComponentCategory)) or (component_id == 0 and category == GRID)`. -/
def Component.is_valid (self : Component) : Bool :=
  (decide (self.component_id > 0) &&
    ComponentCategory.members.any (fun t => t == self.category)) ||
  (self.component_id == 0 && self.category == ComponentCategory.GRID)

/-- Embeds the frozen dataclass `GridConnection` from `grid_connection.py`. -/
structure GridConnection where
  fuse : Fuse
deriving DecidableEq, Repr

/-- Embeds `initialize` from `grid_connection.py` as an explicit state
transformer over the module-level singleton `_GRID_CONNECTION` (the name
`initialize` is reserved in Lean).  The pair returned is (outcome, the value
of `_GRID_CONNECTION` after the call): the singleton is assigned only as the
very last statement of the success path, mirroring the source, and an islanded
microgrid (zero grid components) only logs and leaves the singleton as it
was. -/
def gridInitRun (components : List Component) (st : Option GridConnection) :
    Except PyError Unit × Option GridConnection :=
  let grid_connections :=
    components.filter (fun c => c.category == ComponentCategory.GRID)
  if grid_connections.length == 0 then
    (.ok (), st)
  else if grid_connections.length > 1 then
    (.error .runtimeMultipleGrids, st)
  else
    match grid_connections.head? with
    | none => (.error .runtimeMultipleGrids, st)
    | some g =>
      match g.metadata with
      | none => (.error .runtimeGridMetadataNone, st)
      | some md =>
        match md.fuseAttr with
        | .error e => (.error e, st)
        | .ok none => (.error .runtimeGridFuseNone, st)
        | .ok (some grid_fuse) => (.ok (), some ⟨grid_fuse⟩)

/-- Embeds `get` from `grid_connection.py`: returns the current value of the
module-level singleton. -/
def gridGet (st : Option GridConnection) : Option GridConnection := st

/-- The module states reachable from the initial `_GRID_CONNECTION = None`
through any sequence of `initialize` calls (successful or not; a raising call
leaves the state at the second projection, which `gridInitRun` reports). -/
inductive GridReachable : Option GridConnection → Prop where
  | init : GridReachable none
  | step (components : List Component) (st : Option GridConnection) :
      GridReachable st → GridReachable (gridInitRun components st).2

/-- Modelled from the spec: the errors of the formula-generator interface
(`ComponentNotFound`, `FormulaGenerationError`), re-exported by
`_formula_generators/__init__.py`; their defining module is not under src/. -/
inductive FormulaError where
  | componentNotFound
  | formulaGenerationError
deriving DecidableEq, Repr

/-- Modelled from the spec: the immutable expression tree of §3/§4.3 — a node
is a leaf referencing one component metric stream, or a sum, difference or
negation over child nodes. -/
inductive FormulaExpr where
  | leaf (component_id : ℤ)
  | add (l r : FormulaExpr)
  | sub (l r : FormulaExpr)
  | neg (e : FormulaExpr)
deriving DecidableEq, Repr

/-- Modelled from the spec: the `BatteryPowerFormula` generator
(`_battery_power_formula.py` is not under src/; only the re-export in
`_formula_generators/__init__.py` is).  Per §4.3, it selects the components of
category Battery, fails with `ComponentNotFound` when there are none, and
otherwise combines one power leaf per battery with the default `sum`
operator. -/
def BatteryPowerFormula.generate (components : List Component) :
    Except FormulaError FormulaExpr :=
  let batteries :=
    components.filter (fun c => c.category == ComponentCategory.BATTERY)
  match batteries with
  | [] => .error .componentNotFound
  | b :: rest =>
    .ok (rest.foldl (fun acc c => .add acc (.leaf c.component_id))
      (.leaf b.component_id))

/-- Modelled from the spec: one evaluation cycle of the Formula Engine (§4.4)
over a coherent aligned sample set, `samples` giving the cached latest value
per component stream (`none` = no data yet).  Operator nodes apply
sum/difference/negation to their children, and an undefined leaf propagates as
undefined through every operator, so no partial sum is emitted. -/
def evalFormula (samples : ℤ → Option ℚ) : FormulaExpr → Option ℚ
  | .leaf component_id => samples component_id
  | .add l r =>
    match evalFormula samples l, evalFormula samples r with
    | some a, some b => some (a + b)
    | _, _ => none
  | .sub l r =>
    match evalFormula samples l, evalFormula samples r with
    | some a, some b => some (a - b)
    | _, _ => none
  | .neg e =>
    match evalFormula samples e with
    | some a => some (-a)
    | none => none

/-- Helper: `gridInitRun` never changes the singleton in this source tree.  On
the zero-grid and the error paths the source never assigns `_GRID_CONNECTION`,
and the single assignment on the success path sits behind `metadata.fuse`,
whose lookup always raises `AttributeError` (no `fuse` attribute exists on
`GridMetadata`), so the success path is unreachable. -/
theorem gridInitRun_snd (components : List Component)
    (st : Option GridConnection) : (gridInitRun components st).2 = st := by
  simp only [gridInitRun]
  split
  · rfl
  · split
    · rfl
    · split
      · rfl
      · rename_i g _
        match hm : g.metadata with
        | none => rfl
        | some md =>
          match md with
          | .grid gm => rfl

/-- Helper: every reachable singleton state is `none` — the grid connection can
never actually be constructed in this source tree. -/
theorem gridReachable_none (st : Option GridConnection)
    (h : GridReachable st) : st = none := by
  induction h with
  | init => rfl
  | step components st _ ih => rw [gridInitRun_snd]; exact ih

/-- Helper: every `ComponentCategory` is listed in `ComponentCategory.members`. -/
theorem componentCategory_mem_members (t : ComponentCategory) :
    t ∈ ComponentCategory.members := by
  cases t <;> decide

/-- Helper: every `InverterType` is listed in `InverterType.members`. -/
theorem inverterType_mem_members (t : InverterType) :
    t ∈ InverterType.members := by
  cases t <;> decide

/-- C1: evaluation of `initialize` at the single-Grid input of the repository
test (`Component(1, GRID, None, GridMetadata(123.0))`): instead of completing
and storing a `GridConnection` whose fuse carries 123 A on each phase, the call
raises `AttributeError` at `grid_connections[0].metadata.fuse` — `GridMetadata`
defines no `fuse` attribute — and the singleton stays `None`. -/
theorem grid_init_single_grid_attribute_error :
    gridInitRun [Component.mk 1 ComponentCategory.GRID none
      (some (ComponentMetadata.grid ⟨123⟩))] none =
    (Except.error PyError.attributeErrorNoFuse, none) := rfl

/-- C3: evaluation of the three count-dependent paths of `initialize`: a
two-Grid list raises the at-most-one-grid `RuntimeError`; a grid-less list
completes without raising; but a single-Grid list with a `GridMetadata` still
raises (an `AttributeError`, since `GridMetadata` has no `fuse` attribute),
contradicting the claim that no error is raised for one well-formed Grid. -/
theorem grid_init_count_paths_eval :
    (gridInitRun [Component.mk 1 ComponentCategory.GRID none
        (some (ComponentMetadata.grid ⟨123⟩)),
      Component.mk 2 ComponentCategory.GRID none
        (some (ComponentMetadata.grid ⟨345⟩)),
      Component.mk 3 ComponentCategory.METER none none] none).1 =
      Except.error PyError.runtimeMultipleGrids ∧
    (gridInitRun [Component.mk 2 ComponentCategory.METER none none] none).1 =
      Except.ok () ∧
    (gridInitRun [Component.mk 1 ComponentCategory.GRID none
        (some (ComponentMetadata.grid ⟨123⟩))] none).1 =
      Except.error PyError.attributeErrorNoFuse :=
  ⟨rfl, rfl, rfl⟩

/-- C2 counterexample: `Component(1, GRID)` is accepted by `is_valid` (its id
is positive and GRID is a listed category), yet its `component_id` is not 0
while its category is GRID, so the biconditional of the claim fails on it. -/
theorem is_valid_grid_positive_id_counterexample :
    Component.is_valid (Component.mk 1 ComponentCategory.GRID none none) = true ∧
    ¬((Component.mk 1 ComponentCategory.GRID none none).component_id = 0 ↔
      (Component.mk 1 ComponentCategory.GRID none none).category =
        ComponentCategory.GRID) := by
  decide

/-- C2 amended: for every component accepted by `is_valid`, `component_id = 0`
implies the category is GRID, and every valid non-Grid component has a
positive `component_id`; the converse direction of the original biconditional
(GRID implies id 0) does not hold, since `is_valid` also accepts Grid
components with positive ids. -/
theorem is_valid_id_zero_imp_grid (c : Component) (h : c.is_valid = true) :
    (c.component_id = 0 → c.category = ComponentCategory.GRID) ∧
    (c.category ≠ ComponentCategory.GRID → 0 < c.component_id) := by
  unfold Component.is_valid at h
  simp only [Bool.or_eq_true, Bool.and_eq_true, decide_eq_true_eq,
    beq_iff_eq] at h
  constructor
  · intro h0
    rcases h with ⟨hpos, _⟩ | ⟨_, hg⟩
    · omega
    · exact hg
  · intro hng
    rcases h with ⟨hpos, _⟩ | ⟨_, hg⟩
    · exact hpos
    · exact absurd hg hng

/-- Witness for the amended C2 theorem at the grid component of id 0. -/
theorem is_valid_id_zero_imp_grid_witness :
    ((Component.mk 0 ComponentCategory.GRID none none).component_id = 0 →
      (Component.mk 0 ComponentCategory.GRID none none).category =
        ComponentCategory.GRID) ∧
    ((Component.mk 0 ComponentCategory.GRID none none).category ≠
        ComponentCategory.GRID →
      0 < (Component.mk 0 ComponentCategory.GRID none none).component_id) :=
  is_valid_id_zero_imp_grid (Component.mk 0 ComponentCategory.GRID none none)
    (by decide)

/-- C4: for every component list without a Grid-category component (an
islanded microgrid) and every reachable singleton state, `initialize`
completes without raising and a subsequent `get()` returns `None`. -/
theorem islanded_init_ok_get_none (components : List Component)
    (st : Option GridConnection) (hst : GridReachable st)
    (h : ∀ c ∈ components, c.category ≠ ComponentCategory.GRID) :
    (gridInitRun components st).1 = Except.ok () ∧
    gridGet (gridInitRun components st).2 = none := by
  have hf : components.filter (fun c => c.category == ComponentCategory.GRID)
      = [] := by
    rw [List.filter_eq_nil_iff]
    intro a ha
    simp only [beq_iff_eq]
    exact h a ha
  constructor
  · simp [gridInitRun, hf]
  · rw [gridInitRun_snd]
    exact gridReachable_none st hst

/-- Witness for C4 at the meter-only component list of the repository test,
starting from the initial module state. -/
theorem islanded_init_ok_get_none_witness :
    (gridInitRun [Component.mk 2 ComponentCategory.METER none none] none).1 =
      Except.ok () ∧
    gridGet (gridInitRun [Component.mk 2 ComponentCategory.METER none none]
      none).2 = none :=
  islanded_init_ok_get_none [Component.mk 2 ComponentCategory.METER none none]
    none GridReachable.init (by decide)

/-- C5: whenever `initialize` raises, the module-level singleton is left
unchanged, so `get()` returns exactly what it returned before the failed call.
The only assignment to `_GRID_CONNECTION` is the final statement of the
success path, after every raise site. -/
theorem grid_init_error_preserves_singleton (components : List Component)
    (st : Option GridConnection) (e : PyError)
    (_h : (gridInitRun components st).1 = Except.error e) :
    gridGet (gridInitRun components st).2 = gridGet st := by
  rw [gridInitRun_snd]

/-- Witness for C5 at the two-Grid component list of the repository test,
whose `initialize` call raises the at-most-one-grid `RuntimeError`. -/
theorem grid_init_error_preserves_singleton_witness :
    gridGet (gridInitRun
      [Component.mk 1 ComponentCategory.GRID none
        (some (ComponentMetadata.grid ⟨123⟩)),
       Component.mk 2 ComponentCategory.GRID none
        (some (ComponentMetadata.grid ⟨345⟩))] none).2 = gridGet none :=
  grid_init_error_preserves_singleton
    [Component.mk 1 ComponentCategory.GRID none
      (some (ComponentMetadata.grid ⟨123⟩)),
     Component.mk 2 ComponentCategory.GRID none
      (some (ComponentMetadata.grid ⟨345⟩))] none
    PyError.runtimeMultipleGrids rfl

/-- Helper: when some enum member carries the wire value, the Python-style
enum lookup `ComponentCategory(v)` returns (ok) the first such member. -/
theorem componentCategory_ofValue_ok_of_any (v : ℕ)
    (h : ComponentCategory.members.any (fun t => t.value == v) = true) :
    ∃ t : ComponentCategory, t.value = v ∧
      ComponentCategory.ofValue v = Except.ok t := by
  have hs : (ComponentCategory.members.find? (fun t => t.value == v)).isSome :=
    List.find?_isSome.mpr (List.any_eq_true.mp h)
  rcases Option.isSome_iff_exists.mp hs with ⟨u, hu⟩
  have hp := List.find?_some hu
  simp only [beq_iff_eq] at hp
  refine ⟨u, hp, ?_⟩
  unfold ComponentCategory.ofValue
  rw [hu]

/-- Helper: when some `InverterType` member carries the value, the lookup
`InverterType(v)` returns (ok) the first such member. -/
theorem inverterType_ofValue_ok_of_any (v : ℕ)
    (h : InverterType.members.any (fun t => t.value == v) = true) :
    ∃ t : InverterType, t.value = v ∧
      InverterType.ofValue v = Except.ok t := by
  have hs : (InverterType.members.find? (fun t => t.value == v)).isSome :=
    List.find?_isSome.mpr (List.any_eq_true.mp h)
  rcases Option.isSome_iff_exists.mp hs with ⟨u, hu⟩
  have hp := List.find?_some hu
  simp only [beq_iff_eq] at hp
  refine ⟨u, hp, ?_⟩
  unfold InverterType.ofValue
  rw [hu]

/-- C6: `_component_category_from_protobuf` raises `ValueError` exactly on the
SENSOR wire value; every other wire value is decoded totally and explicitly —
to the `ComponentCategory` member carrying that value when one exists, and to
the fallback member `ComponentCategory.NONE` when none does, so no wire value
is silently dropped. -/
theorem component_category_from_protobuf_spec (v : ℕ) :
    (v = componentCategorySensorValue →
      componentCategoryFromProtobuf v = Except.error PyError.valueErrorSensor) ∧
    (v ≠ componentCategorySensorValue →
      ((∃ t : ComponentCategory, t.value = v ∧
          componentCategoryFromProtobuf v = Except.ok t) ∨
        ((∀ t : ComponentCategory, t.value ≠ v) ∧
          componentCategoryFromProtobuf v = Except.ok ComponentCategory.NONE))) := by
  constructor
  · intro hv
    simp [componentCategoryFromProtobuf, hv]
  · intro hv
    by_cases hany :
        ComponentCategory.members.any (fun t => t.value == v) = true
    · left
      rcases componentCategory_ofValue_ok_of_any v hany with ⟨t, htv, hok⟩
      refine ⟨t, htv, ?_⟩
      simp [componentCategoryFromProtobuf, hv, hany, hok]
    · right
      rw [Bool.not_eq_true] at hany
      constructor
      · intro t htv
        have : ComponentCategory.members.any (fun u => u.value == v) = true :=
          List.any_eq_true.mpr
            ⟨t, componentCategory_mem_members t, by simp [htv]⟩
        rw [hany] at this
        exact Bool.false_ne_true this
      · simp [componentCategoryFromProtobuf, hv, hany]

/-- Witness for C6 at the SENSOR wire value 7. -/
theorem component_category_from_protobuf_spec_witness :
    componentCategoryFromProtobuf componentCategorySensorValue =
      Except.error PyError.valueErrorSensor :=
  (component_category_from_protobuf_spec componentCategorySensorValue).1 rfl

/-- C9: `_component_type_from_protobuf` is total and never raises: it returns
(ok) `None` for every non-INVERTER category, and for the INVERTER category it
returns the `InverterType` member whose value equals the metadata type field,
or `None` when no member has that value. -/
theorem component_type_from_protobuf_spec (cc ty : ℕ) :
    (cc ≠ componentCategoryInverterValue →
      componentTypeFromProtobuf cc ty = Except.ok none) ∧
    (cc = componentCategoryInverterValue →
      ((∃ t : InverterType, t.value = ty ∧
          componentTypeFromProtobuf cc ty = Except.ok (some t)) ∨
        ((∀ t : InverterType, t.value ≠ ty) ∧
          componentTypeFromProtobuf cc ty = Except.ok none))) := by
  constructor
  · intro hcc
    simp [componentTypeFromProtobuf, hcc]
  · intro hcc
    by_cases hany : InverterType.members.any (fun t => t.value == ty) = true
    · left
      rcases inverterType_ofValue_ok_of_any ty hany with ⟨t, htv, hok⟩
      refine ⟨t, htv, ?_⟩
      simp [componentTypeFromProtobuf, hcc, hany, hok, Except.map]
    · right
      rw [Bool.not_eq_true] at hany
      constructor
      · intro t htv
        have : InverterType.members.any (fun u => u.value == ty) = true :=
          List.any_eq_true.mpr ⟨t, inverterType_mem_members t, by simp [htv]⟩
        rw [hany] at this
        exact Bool.false_ne_true this
      · simp [componentTypeFromProtobuf, hcc, hany]

/-- Witness for C9 at the METER wire category (2) with an arbitrary metadata
type field. -/
theorem component_type_from_protobuf_spec_witness :
    componentTypeFromProtobuf 2 5 = Except.ok none :=
  (component_type_from_protobuf_spec 2 5).1 (by decide)

/-- Helper: `Current` is a value wrapper, so equal Ampere magnitudes give
equal currents. -/
theorem Current.eq_of_as_amperes (x y : Current)
    (h : x.as_amperes = y.as_amperes) : x = y := by
  cases x
  cases y
  cases h
  rfl

/-- C7: `Fuse` equality and hash are by value: two fuses whose per-phase rated
currents agree in Amperes on all three phases compare equal under the
dataclass `__eq__` and get equal `__hash__` results, so the hash is consistent
with equality. -/
theorem fuse_eq_and_hash_by_value (a b : Fuse)
    (h1 : a.rated_current_phase_1.as_amperes =
      b.rated_current_phase_1.as_amperes)
    (h2 : a.rated_current_phase_2.as_amperes =
      b.rated_current_phase_2.as_amperes)
    (h3 : a.rated_current_phase_3.as_amperes =
      b.rated_current_phase_3.as_amperes) :
    Fuse.eqPy a b = true ∧ Fuse.pyHash a = Fuse.pyHash b := by
  have e1 := Current.eq_of_as_amperes _ _ h1
  have e2 := Current.eq_of_as_amperes _ _ h2
  have e3 := Current.eq_of_as_amperes _ _ h3
  constructor
  · simp [Fuse.eqPy, e1, e2, e3]
  · simp [Fuse.pyHash, h1, h2, h3]

/-- Witness for C7 at two fuses built from the same per-phase ratings
123 A / 124 A / 125 A. -/
theorem fuse_eq_and_hash_by_value_witness :
    Fuse.eqPy
      (Fuse.mk (Current.from_amperes 123) (Current.from_amperes 124)
        (Current.from_amperes 125))
      (Fuse.mk (Current.from_amperes 123) (Current.from_amperes 124)
        (Current.from_amperes 125)) = true ∧
    Fuse.pyHash
      (Fuse.mk (Current.from_amperes 123) (Current.from_amperes 124)
        (Current.from_amperes 125)) =
    Fuse.pyHash
      (Fuse.mk (Current.from_amperes 123) (Current.from_amperes 124)
        (Current.from_amperes 125)) :=
  fuse_eq_and_hash_by_value
    (Fuse.mk (Current.from_amperes 123) (Current.from_amperes 124)
      (Current.from_amperes 125))
    (Fuse.mk (Current.from_amperes 123) (Current.from_amperes 124)
      (Current.from_amperes 125)) rfl rfl rfl

/-- C10: `GridMetadata` equality and hash are by `max_current`, and its
`__eq__` is total over arbitrary right-hand operands: two instances with equal
`max_current` compare equal and hash equal, and comparison against any
non-`GridMetadata` object returns `False` instead of raising. -/
theorem grid_metadata_eq_and_hash_by_value (a b : GridMetadata) (tag : ℕ)
    (h : a.max_current = b.max_current) :
    GridMetadata.eqPy a (PyObj.gridMetadata b) = true ∧
    GridMetadata.pyHash a = GridMetadata.pyHash b ∧
    GridMetadata.eqPy a (PyObj.notGridMetadata tag) = false := by
  refine ⟨?_, h, rfl⟩
  simp [GridMetadata.eqPy, h]

/-- Witness for C10 at two `GridMetadata(123.0)` instances and an unrelated
object. -/
theorem grid_metadata_eq_and_hash_by_value_witness :
    GridMetadata.eqPy ⟨123⟩ (PyObj.gridMetadata ⟨123⟩) = true ∧
    GridMetadata.pyHash ⟨123⟩ = GridMetadata.pyHash ⟨123⟩ ∧
    GridMetadata.eqPy ⟨123⟩ (PyObj.notGridMetadata 0) = false :=
  grid_metadata_eq_and_hash_by_value ⟨123⟩ ⟨123⟩ 0 rfl

/-- C8: with three battery components (ids 7, 8 and 9) whose aligned power
samples are 10, -5 and 2, the battery power formula generator produces a sum
tree whose evaluation emits the combined output sample 7. -/
theorem battery_power_formula_sum_eval :
    (BatteryPowerFormula.generate
      [Component.mk 7 ComponentCategory.BATTERY none none,
       Component.mk 8 ComponentCategory.BATTERY none none,
       Component.mk 9 ComponentCategory.BATTERY none none]).map
      (evalFormula (fun component_id =>
        if component_id = 7 then some 10
        else if component_id = 8 then some (-5)
        else if component_id = 9 then some 2
        else none)) = Except.ok (some 7) := by
  norm_num [BatteryPowerFormula.generate, evalFormula, Except.map,
    List.filter, List.foldl]
